import Mathlib

/-!
Verification of the v5 `Auth` packet codec of the rumqtt repository
(`src/rumqttc/src/v5/mqttbytes/v5/auth.rs`).

Byte buffers are modelled as `List Nat` (each element a byte value `< 256`);
MQTT strings, which the codec stores as UTF-8 byte sequences behind a 2-byte
big-endian length prefix, are modelled as their byte sequences (the UTF-8
validity check of `read_mqtt_string` is not modelled — it is transparent for
every property appearing in the claims).  The helper codec functions
(`read_u8`, `length`, `read_mqtt_bytes`, `write_remaining_length`, the
property-identifier table, …) live in the parent `mqttbytes` module, which is
not part of the provided sources; they are modelled from the specification as
indicated on each definition.
-/

deriving instance DecidableEq for Except

set_option maxRecDepth 100000

namespace Rumqtt

/-- Modelled from the spec: the error taxonomy of §7 (MalformedPacket,
InvalidPropertyType, InsufficientBytes), plus the failure of the
variable-length-integer writer when a value exceeds the maximum representable
length 268,435,455 (§4.1). -/
inductive Error where
  | MalformedPacket
  | InvalidPropertyType (id : Nat)
  | InsufficientBytes (required : Nat)
  | PayloadTooLong
deriving DecidableEq

/-- Modelled from the spec: the fixed identifier→type table of the v5
property (TLV) codec (§4.2); the missing parent module's `PropertyType`
enumeration, whose discriminants are the standard v5 property identifiers. -/
inductive PropertyType where
  | PayloadFormatIndicator
  | MessageExpiryInterval
  | ContentType
  | ResponseTopic
  | CorrelationData
  | SubscriptionIdentifier
  | SessionExpiryInterval
  | AssignedClientIdentifier
  | ServerKeepAlive
  | AuthenticationMethod
  | AuthenticationData
  | RequestProblemInformation
  | WillDelayInterval
  | RequestResponseInformation
  | ResponseInformation
  | ServerReference
  | ReasonString
  | ReceiveMaximum
  | TopicAliasMaximum
  | TopicAlias
  | MaximumQoS
  | RetainAvailable
  | UserProperty
  | MaximumPacketSize
  | WildcardSubscriptionAvailable
  | SubscriptionIdentifierAvailable
  | SharedSubscriptionAvailable
deriving DecidableEq

/-- Modelled from the spec: the numeric identifier byte of each property type
(the `PropertyType as u8` discriminants of the missing parent module). -/
def PropertyType.code : PropertyType → Nat
  | .PayloadFormatIndicator => 1
  | .MessageExpiryInterval => 2
  | .ContentType => 3
  | .ResponseTopic => 8
  | .CorrelationData => 9
  | .SubscriptionIdentifier => 11
  | .SessionExpiryInterval => 17
  | .AssignedClientIdentifier => 18
  | .ServerKeepAlive => 19
  | .AuthenticationMethod => 21
  | .AuthenticationData => 22
  | .RequestProblemInformation => 23
  | .WillDelayInterval => 24
  | .RequestResponseInformation => 25
  | .ResponseInformation => 26
  | .ServerReference => 28
  | .ReasonString => 31
  | .ReceiveMaximum => 33
  | .TopicAliasMaximum => 34
  | .TopicAlias => 35
  | .MaximumQoS => 36
  | .RetainAvailable => 37
  | .UserProperty => 38
  | .MaximumPacketSize => 39
  | .WildcardSubscriptionAvailable => 40
  | .SubscriptionIdentifierAvailable => 41
  | .SharedSubscriptionAvailable => 42

/-- Modelled from the spec: the identifier-dispatch function of the property
codec (§4.2): "dispatch on a fixed identifier→type table"; "An identifier not
in the table … fails with InvalidPropertyType(identifier)".  The missing
parent module's `property` function. -/
def property (num : Nat) : Except Error PropertyType :=
  match num with
  | 1 => .ok .PayloadFormatIndicator
  | 2 => .ok .MessageExpiryInterval
  | 3 => .ok .ContentType
  | 8 => .ok .ResponseTopic
  | 9 => .ok .CorrelationData
  | 11 => .ok .SubscriptionIdentifier
  | 17 => .ok .SessionExpiryInterval
  | 18 => .ok .AssignedClientIdentifier
  | 19 => .ok .ServerKeepAlive
  | 21 => .ok .AuthenticationMethod
  | 22 => .ok .AuthenticationData
  | 23 => .ok .RequestProblemInformation
  | 24 => .ok .WillDelayInterval
  | 25 => .ok .RequestResponseInformation
  | 26 => .ok .ResponseInformation
  | 28 => .ok .ServerReference
  | 31 => .ok .ReasonString
  | 33 => .ok .ReceiveMaximum
  | 34 => .ok .TopicAliasMaximum
  | 35 => .ok .TopicAlias
  | 36 => .ok .MaximumQoS
  | 37 => .ok .RetainAvailable
  | 38 => .ok .UserProperty
  | 39 => .ok .MaximumPacketSize
  | 40 => .ok .WildcardSubscriptionAvailable
  | 41 => .ok .SubscriptionIdentifierAvailable
  | 42 => .ok .SharedSubscriptionAvailable
  | n => .error (.InvalidPropertyType n)

/-- Modelled from the spec: read one byte from the buffer; §7's
InsufficientBytes when the buffer is empty.  The missing parent module's
`read_u8`.  Returns the byte together with the remaining buffer. -/
def read_u8 : List Nat → Except Error (Nat × List Nat)
  | [] => .error (.InsufficientBytes 1)
  | b :: rest => .ok (b, rest)

/-- Modelled from the spec: read a 2-byte big-endian integer (§6); the
missing parent module's `read_u16`. -/
def read_u16 : List Nat → Except Error (Nat × List Nat)
  | b1 :: b2 :: rest => .ok (b1 * 256 + b2, rest)
  | l => .error (.InsufficientBytes (2 - l.length))

/-- Modelled from the spec: binary data is a 2-byte big-endian length prefix
followed by that many raw bytes (§6); the missing parent module's
`read_mqtt_bytes`. -/
def read_mqtt_bytes (bytes : List Nat) : Except Error (List Nat × List Nat) :=
  match read_u16 bytes with
  | .error e => .error e
  | .ok (len, rest) =>
    if rest.length < len then .error (.InsufficientBytes (len - rest.length))
    else .ok (rest.take len, rest.drop len)

/-- Modelled from the spec: a string is a 2-byte big-endian length prefix
followed by its UTF-8 bytes (§6); the missing parent module's
`read_mqtt_string`.  Strings are modelled as their byte sequences, so the
UTF-8 validity check is not modelled. -/
def read_mqtt_string (bytes : List Nat) : Except Error (List Nat × List Nat) :=
  read_mqtt_bytes bytes

/-- Modelled from the spec: write a 2-byte big-endian integer (§6); the low
16 bits of the value, as the `as u16` narrowing of the missing parent module
keeps. -/
def write_u16 (n : Nat) : List Nat :=
  [n / 256 % 256, n % 256]

/-- Modelled from the spec: emit binary data as a 2-byte big-endian length
prefix plus the raw bytes (§6); the missing parent module's
`write_mqtt_bytes`. -/
def write_mqtt_bytes (data : List Nat) : List Nat :=
  write_u16 data.length ++ data

/-- Modelled from the spec: emit a string as a 2-byte big-endian length
prefix plus its UTF-8 bytes (§6); the missing parent module's
`write_mqtt_string`. -/
def write_mqtt_string (s : List Nat) : List Nat :=
  write_mqtt_bytes s

/-- Modelled from the spec: the byte length of the minimal variable-byte
integer encoding of `len` — 7 data bits per byte (§4.1); the missing parent
module's `len_len`. -/
def len_len (len : Nat) : Nat :=
  if len ≥ 2097152 then 4
  else if len ≥ 16384 then 3
  else if len ≥ 128 then 2
  else 1

/-- Modelled from the spec: the minimal variable-byte integer encoding —
7 data bits per byte, little-endian, continuation bit in the top bit (§4.1).
The fuel argument bounds the emit loop; 4 bytes suffice for every value the
guarded writer `write_remaining_length` passes in (≤ 268,435,455). -/
def encodeVarintAux : Nat → Nat → List Nat
  | 0, _ => []
  | fuel + 1, x =>
    if x < 128 then [x]
    else (x % 128 + 128) :: encodeVarintAux fuel (x / 128)

/-- The variable-byte integer encoding of a length value (at most 4 bytes). -/
def encodeVarint (x : Nat) : List Nat :=
  encodeVarintAux 4 x

/-- Modelled from the spec: the variable-byte integer writer used for
remaining-length and property-length fields; it rejects values above the
maximum representable 268,435,455 (§4.1) and returns the emitted bytes and
their count.  The missing parent module's `write_remaining_length`. -/
def write_remaining_length (len : Nat) : Except Error (List Nat × Nat) :=
  if len > 268435455 then .error .PayloadTooLong
  else .ok (encodeVarint len, (encodeVarint len).length)

/-- Modelled from the spec: the variable-byte integer reader (§4.1):
consumes bytes until the continuation bit is clear, accumulating 7 bits per
byte little-endian; fails with MalformedPacket on a continuation bit in the
fourth byte (shift past 21), and with InsufficientBytes when the buffer ends
first.  Arguments: buffer, byte count so far, current shift, accumulator. -/
def lengthAux : List Nat → Nat → Nat → Nat → Except Error (Nat × Nat)
  | [], _, _, _ => .error (.InsufficientBytes 1)
  | b :: rest, count, shift, acc =>
    let acc := acc + b % 128 * 2 ^ shift
    if b < 128 then .ok (count + 1, acc)
    else if shift + 7 > 21 then .error .MalformedPacket
    else lengthAux rest (count + 1) (shift + 7) acc

/-- Modelled from the spec: the missing parent module's `length` — decode a
variable-byte integer from the front of the buffer without consuming it,
returning `(bytes_consumed, value)` (§4.1). -/
def length (bytes : List Nat) : Except Error (Nat × Nat) :=
  lengthAux bytes 0 0 0

/-- Auth packet reason code (`AuthReasonCode` of auth.rs). -/
inductive AuthReasonCode where
  | Success
  | Continue
  | ReAuthenticate
deriving DecidableEq

/-- AuthReasonCode::read — one byte; 0x00, 0x18, 0x19 map to the three
variants, every other byte is MalformedPacket. -/
def AuthReasonCode.read (bytes : List Nat) : Except Error (AuthReasonCode × List Nat) :=
  match read_u8 bytes with
  | .error e => .error e
  | .ok (reason_code, rest) =>
    match reason_code with
    | 0x00 => .ok (.Success, rest)
    | 0x18 => .ok (.Continue, rest)
    | 0x19 => .ok (.ReAuthenticate, rest)
    | _ => .error .MalformedPacket

/-- AuthReasonCode::write — the byte appended to the buffer (the Rust
function always returns Ok(()), so only the emitted byte is modelled). -/
def AuthReasonCode.write : AuthReasonCode → List Nat
  | .Success => [0x00]
  | .Continue => [0x18]
  | .ReAuthenticate => [0x19]

/-- AuthProperties of auth.rs: optional method, data and reason string plus
the ordered user-property list. -/
structure AuthProperties where
  method : Option (List Nat)
  data : Option (List Nat)
  reason_string : Option (List Nat)
  user_properties : List (List Nat × List Nat)
deriving DecidableEq

/-- AuthProperties::default() — every optional field absent, no user
properties. -/
def AuthProperties.default : AuthProperties :=
  ⟨none, none, none, []⟩

/-- AuthProperties::len — the encoded length of the property fields:
1 + 2 + len for each present string/data field, 1 + 2 + klen + 2 + vlen per
user property. -/
def AuthProperties.len (p : AuthProperties) : Nat :=
  (match p.method with
   | some method => 1 + 2 + method.length
   | none => 0)
  + (match p.data with
     | some data => 1 + 2 + data.length
     | none => 0)
  + (match p.reason_string with
     | some reason => 1 + 2 + reason.length
     | none => 0)
  + (p.user_properties.map
      (fun kv => 1 + 2 + kv.1.length + 2 + kv.2.length)).sum

/-- The property-entry loop of AuthProperties::read (the `while cursor <
properties_len` loop).  The fuel argument bounds the iteration count; it is
never exhausted when started with `fuel = properties_len`, because every
iteration adds at least 1 to the cursor — the fuel-0 branch is unreachable
from `AuthProperties.read`.  The cursor increments are exactly those of the
source: the AuthenticationMethod and ReasonString arms add `1 + len` (the
source omits their 2-byte string-length prefix), the AuthenticationData and
UserProperty arms add `1 + 2 + len` and `1 + 2 + klen + 2 + vlen`. -/
def AuthProperties.readLoop (fuel cursor properties_len : Nat)
    (props : AuthProperties) (bytes : List Nat) :
    Except Error (AuthProperties × List Nat) :=
  if cursor < properties_len then
    match fuel with
    | 0 => .error .MalformedPacket
    | fuel + 1 =>
      match read_u8 bytes with
      | .error e => .error e
      | .ok (prop, bytes) =>
        match property prop with
        | .error e => .error e
        | .ok .AuthenticationMethod =>
          match read_mqtt_string bytes with
          | .error e => .error e
          | .ok (method, bytes) =>
            AuthProperties.readLoop fuel (cursor + 1 + method.length)
              properties_len { props with method := some method } bytes
        | .ok .AuthenticationData =>
          match read_mqtt_bytes bytes with
          | .error e => .error e
          | .ok (data, bytes) =>
            AuthProperties.readLoop fuel (cursor + 1 + (2 + data.length))
              properties_len { props with data := some data } bytes
        | .ok .ReasonString =>
          match read_mqtt_string bytes with
          | .error e => .error e
          | .ok (reason, bytes) =>
            AuthProperties.readLoop fuel (cursor + 1 + reason.length)
              properties_len { props with reason_string := some reason } bytes
        | .ok .UserProperty =>
          match read_mqtt_string bytes with
          | .error e => .error e
          | .ok (key, bytes) =>
            match read_mqtt_string bytes with
            | .error e => .error e
            | .ok (value, bytes) =>
              AuthProperties.readLoop fuel
                (cursor + 1 + (2 + key.length + 2 + value.length))
                properties_len
                { props with
                    user_properties := props.user_properties ++ [(key, value)] }
                bytes
        | .ok _ => .error (.InvalidPropertyType prop)
  else .ok (props, bytes)

/-- AuthProperties::read — decode the property-length varint, skip it, return
None for a zero-length block, otherwise run the entry loop. -/
def AuthProperties.read (bytes : List Nat) :
    Except Error (Option AuthProperties × List Nat) :=
  match length bytes with
  | .error e => .error e
  | .ok (properties_len_len, properties_len) =>
    let bytes := bytes.drop properties_len_len
    if properties_len = 0 then .ok (none, bytes)
    else
      match AuthProperties.readLoop properties_len 0 properties_len
        AuthProperties.default bytes with
      | .error e => .error e
      | .ok (props, bytes) => .ok (some props, bytes)

/-- The property fields emitted by AuthProperties::write, in the source's
fixed order: method, data, reason string, then each user property. -/
def AuthProperties.fieldBytes (p : AuthProperties) : List Nat :=
  (match p.method with
   | some authentication_method =>
     PropertyType.AuthenticationMethod.code :: write_mqtt_string authentication_method
   | none => [])
  ++ (match p.data with
      | some authentication_data =>
        PropertyType.AuthenticationData.code :: write_mqtt_bytes authentication_data
      | none => [])
  ++ (match p.reason_string with
      | some reason_string =>
        PropertyType.ReasonString.code :: write_mqtt_string reason_string
      | none => [])
  ++ (p.user_properties.map
       (fun kv =>
         PropertyType.UserProperty.code ::
           (write_mqtt_string kv.1 ++ write_mqtt_string kv.2))).flatten

/-- AuthProperties::write — the property-length varint followed by the
fields; returns the bytes appended to the buffer. -/
def AuthProperties.write (p : AuthProperties) : Except Error (List Nat) :=
  match write_remaining_length p.len with
  | .error e => .error e
  | .ok (len_bytes, _) => .ok (len_bytes ++ p.fieldBytes)

/-- The Auth packet: reason code plus optional properties. -/
structure Auth where
  reason : AuthReasonCode
  properties : Option AuthProperties
deriving DecidableEq

/-- Auth::len — 1 byte of reason code, 1 byte counted for the property
length, plus the property fields' length when present (the source counts the
property-length field as a flat 1 regardless of its actual varint width). -/
def Auth.len (a : Auth) : Nat :=
  1 + 1 + (match a.properties with
           | some properties => properties.len
           | none => 0)

/-- Auth::size — control byte + remaining-length width + remaining length. -/
def Auth.size (a : Auth) : Nat :=
  1 + len_len a.len + a.len

/-- FixedHeader (spec §3): control byte, offset where the variable header
begins, and remaining-length value.  Only `fixed_header_len` is used by
Auth::read. -/
structure FixedHeader where
  byte1 : Nat
  fixed_header_len : Nat
  remaining_len : Nat
deriving DecidableEq

/-- Outcome of a read that may panic: `Bytes::advance` (used by Auth::read to
skip the fixed header) panics when asked to advance past the end of the
buffer, which no Result can capture. -/
inductive ReadOutcome (α : Type) where
  | ok (value : α)
  | err (e : Error)
  | crash
deriving DecidableEq

/-- Auth::read — advance past the fixed header (`Bytes::advance`, which
panics when `fixed_header_len` exceeds the buffer length — the `crash`
outcome), then read the reason code and the properties. -/
def Auth.read (fixed_header : FixedHeader) (bytes : List Nat) : ReadOutcome Auth :=
  if fixed_header.fixed_header_len ≤ bytes.length then
    let bytes := bytes.drop fixed_header.fixed_header_len
    match AuthReasonCode.read bytes with
    | .error e => .err e
    | .ok (reason, bytes) =>
      match AuthProperties.read bytes with
      | .error e => .err e
      | .ok (properties, _) => .ok ⟨reason, properties⟩
  else .crash

/-- Auth::write — emit 0xF0, the remaining-length varint, the reason code,
then the property block (a zero-length block when properties are absent);
returns the appended bytes and the source's returned count
`1 + count + len`. -/
def Auth.write (a : Auth) : Except Error (List Nat × Nat) :=
  match write_remaining_length a.len with
  | .error e => .error e
  | .ok (remaining_len_bytes, count) =>
    match (match a.properties with
           | some p => AuthProperties.write p
           | none =>
             match write_remaining_length 0 with
             | .error e => .error e
             | .ok (zero_bytes, _) => .ok zero_bytes) with
    | .error e => .error e
    | .ok property_bytes =>
      .ok (0xF0 :: (remaining_len_bytes ++ (a.reason.write ++ property_bytes)),
           1 + count + a.len)

/-! Helper lemmas about the modelled codec primitives. -/

/-- encodeVarint of zero is the single zero byte. -/
theorem encodeVarint_zero : encodeVarint 0 = [0] := rfl

/-- Decoding a length field whose first byte has no continuation bit yields
that byte's value and a one-byte width. -/
theorem length_single_byte (b : Nat) (rest : List Nat) (h : b < 128) :
    length (b :: rest) = .ok (1, b) := by
  simp [length, lengthAux, h, Nat.mod_eq_of_lt h]

/-- Reading length-prefixed data laid out as prefix-then-payload-then-rest
consumes exactly the payload. -/
theorem read_mqtt_bytes_exact (x rest : List Nat) :
    read_mqtt_bytes (0 :: x.length :: (x ++ rest)) = .ok (x, rest) := by
  have hlen : ¬ (x ++ rest).length < 0 * 256 + x.length := by
    simp [List.length_append]
  simp [read_mqtt_bytes, read_u16, hlen, List.take_left, List.drop_left]

/-- The property dispatch at any identifier outside the four Auth-legal ones
either fails with InvalidPropertyType already, or yields a type that is none
of AuthenticationMethod, AuthenticationData, ReasonString, UserProperty. -/
theorem property_not_auth_legal (n : Nat) (h21 : n ≠ 21) (h22 : n ≠ 22)
    (h31 : n ≠ 31) (h38 : n ≠ 38) :
    property n = .error (.InvalidPropertyType n) ∨
    ∃ ty, property n = .ok ty ∧ ty ≠ .AuthenticationMethod ∧
      ty ≠ .AuthenticationData ∧ ty ≠ .ReasonString ∧ ty ≠ .UserProperty := by
  unfold property
  split
  all_goals first
    | (left; rfl)
    | (right; exact ⟨_, rfl, by decide, by decide, by decide, by decide⟩)
    | simp_all

/-! Concrete packets used by the claims. -/

/-- Auth packet whose single user property has a 126-byte key, making the
property block 131 bytes long — the property-length varint then needs 2
bytes, which Auth::len counts as 1. -/
def authOversizedProps : Auth :=
  ⟨.Success, some ⟨none, none, none, [(List.replicate 126 97, [])]⟩⟩

/-- Auth packet with just an authentication method of one byte. -/
def authMethodOnly : Auth :=
  ⟨.Continue, some ⟨some [97], none, none, []⟩⟩

/-- The UTF-8 bytes of "Authentication Method" (21 bytes). -/
def authMethodText : List Nat :=
  [65, 117, 116, 104, 101, 110, 116, 105, 99, 97, 116, 105, 111, 110, 32,
   77, 101, 116, 104, 111, 100]

/-- The UTF-8 bytes of "Authentication Data" (19 bytes). -/
def authDataText : List Nat :=
  [65, 117, 116, 104, 101, 110, 116, 105, 99, 97, 116, 105, 111, 110, 32,
   68, 97, 116, 97]

/-- The scenario packet of claim C5: reason Continue, method "Authentication
Method", data "Authentication Data", one user property ("k", "v"). -/
def authScenarioPkt : Auth :=
  ⟨.Continue, some ⟨some authMethodText, some authDataText, none, [([107], [118])]⟩⟩

/-- The 57 bytes Auth::write emits for `authScenarioPkt`: control byte 0xF0,
remaining length 55 (one byte), reason 0x18, property length 53, then the
three property entries. -/
def authScenarioBytes : List Nat :=
  240 :: 55 :: 24 :: 53 :: 21 :: 0 :: 21 ::
    (authMethodText ++ 22 :: 0 :: 19 :: (authDataText ++ [38, 0, 1, 107, 0, 1, 118]))

/-- C1: Auth::size(p) and the count Auth::write returns agree, but for a
packet whose property block is at least 128 bytes long both undercount the
bytes actually appended by one, because Auth::len counts the property-length
varint as a single byte: at `authOversizedProps` the predicted size and the
returned count are 136 while 137 bytes are appended. -/
theorem auth_size_write_mismatch :
    Auth.size authOversizedProps = 136 ∧
    Except.map (fun r => (r.1.length, r.2)) (Auth.write authOversizedProps) =
      .ok (137, 136) := by
  decide

/-- C2: the write-then-read round trip fails on a packet carrying an
authentication method: writing `authMethodOnly` emits the well-formed buffer
[0xF0, 6, 0x18, 4, 21, 0, 1, 97], yet reading it back (fixed header length 2,
as those bytes describe) fails with InsufficientBytes because the property
cursor omits the method's 2-byte length prefix and the entry loop runs past
the block. -/
theorem auth_write_read_roundtrip_failure :
    Auth.write authMethodOnly = .ok ([240, 6, 24, 4, 21, 0, 1, 97], 8) ∧
    Auth.read ⟨240, 2, 6⟩ [240, 6, 24, 4, 21, 0, 1, 97] =
      .err (.InsufficientBytes 1) := by
  decide

/-- C3: the read cursor of AuthProperties::read does not track the bytes
actually consumed: the exact 4-byte block [4, 21, 0, 1, 97] (one
AuthenticationMethod entry, declared length matching its encoding) is
rejected with InsufficientBytes, while the mismatched block
[2, 21, 0, 1, 97, 99], which declares 2 bytes but whose entry occupies 4, is
accepted (leaving the trailing byte 99 unconsumed). -/
theorem auth_properties_cursor_mismatch :
    AuthProperties.read [4, 21, 0, 1, 97] = .error (.InsufficientBytes 1) ∧
    AuthProperties.read [2, 21, 0, 1, 97, 99] =
      .ok (some ⟨some [97], none, none, []⟩, [99]) := by
  decide

/-- C4 counterexample: Auth::read panics (modelled as `crash`) when the
buffer holds fewer bytes than the fixed-header offset it advances past —
here a 2-byte fixed header against an empty buffer. -/
theorem auth_read_short_buffer_crashes :
    Auth.read ⟨240, 2, 0⟩ [] = .crash := by
  decide

/-- C4 amended: whenever the buffer holds at least `fixed_header_len` bytes,
Auth::read never panics — every outcome is an ok value or a typed error. -/
theorem auth_read_no_crash_within_bounds (fixed_header : FixedHeader)
    (bytes : List Nat) (h : fixed_header.fixed_header_len ≤ bytes.length) :
    Auth.read fixed_header bytes ≠ .crash := by
  unfold Auth.read
  rw [if_pos h]
  rcases h1 : AuthReasonCode.read (bytes.drop fixed_header.fixed_header_len) with
    e | ⟨reason, rest⟩
  · simp [h1]
  · rcases h2 : AuthProperties.read rest with e | ⟨props, rest2⟩ <;> simp [h1, h2]

/-- C4 amended, witness: the bound holds at a concrete in-range input. -/
theorem auth_read_no_crash_within_bounds_witness :
    Auth.read ⟨240, 2, 2⟩ [240, 2, 0, 0] ≠ .crash :=
  auth_read_no_crash_within_bounds ⟨240, 2, 2⟩ [240, 2, 0, 0] (by decide)

/-- C5 counterexample: the scenario packet's encoded body is 55 bytes, so its
remaining-length field occupies 1 byte, not 2; and the written buffer does
not decode back to the packet — reading it fails with InsufficientBytes. -/
theorem auth_scenario_packet_claim_false :
    Auth.write authScenarioPkt = .ok (authScenarioBytes, 57) ∧
    len_len (Auth.len authScenarioPkt) = 1 ∧
    len_len (Auth.len authScenarioPkt) ≠ 2 ∧
    Auth.read ⟨240, 2, 55⟩ authScenarioBytes ≠ .ok authScenarioPkt := by
  decide

/-- C5 amended: the scenario packet encodes to 57 bytes with control byte
0xF0 and a 1-byte remaining-length field (its body is 55 bytes, below 128);
reading the written buffer back fails with InsufficientBytes because of the
property-cursor undercount on the method entry, instead of yielding the
original value. -/
theorem auth_scenario_packet_behavior :
    Auth.size authScenarioPkt = 57 ∧
    encodeVarint (Auth.len authScenarioPkt) = [55] ∧
    Auth.write authScenarioPkt = .ok (authScenarioBytes, 57) ∧
    authScenarioBytes.length = 57 ∧
    authScenarioBytes.head? = some 240 ∧
    Auth.read ⟨240, 2, 55⟩ authScenarioBytes = .err (.InsufficientBytes 1) := by
  decide

/-- C6: AuthReasonCode::read maps 0x00, 0x18 and 0x19 to Success, Continue
and ReAuthenticate and fails with MalformedPacket on every other byte value;
AuthReasonCode::write emits exactly the corresponding byte. -/
theorem authReasonCode_read_write_table :
    (∀ b : Fin 256, AuthReasonCode.read [b.val] =
      if b.val = 0x00 then .ok (.Success, [])
      else if b.val = 0x18 then .ok (.Continue, [])
      else if b.val = 0x19 then .ok (.ReAuthenticate, [])
      else .error .MalformedPacket) ∧
    AuthReasonCode.Success.write = [0x00] ∧
    AuthReasonCode.Continue.write = [0x18] ∧
    AuthReasonCode.ReAuthenticate.write = [0x19] := by
  decide

/-- C10: an Auth packet whose properties are Some of the all-empty
AuthProperties writes exactly the bytes of the same packet with properties
None — control byte, remaining length 2, reason byte, zero property-length
byte — and reading those bytes yields properties None: write-then-read
normalizes Some(empty) to None. -/
theorem auth_empty_properties_normalized :
    ∀ reason : AuthReasonCode,
      Auth.write ⟨reason, some AuthProperties.default⟩ =
        Auth.write ⟨reason, none⟩ ∧
      Auth.write ⟨reason, none⟩ =
        .ok (240 :: 2 :: (AuthReasonCode.write reason ++ [0]), 4) ∧
      Auth.read ⟨240, 2, 2⟩ (240 :: 2 :: (AuthReasonCode.write reason ++ [0])) =
        .ok ⟨reason, none⟩ := by
  intro reason
  cases reason <;> exact ⟨by decide, by decide, by decide⟩

/-- C7: for every Auth packet (whose body length the remaining-length varint
can represent), Auth::write emits, in order, the control byte 0xF0, the
remaining-length varint, the reason-code byte, then the property block — a
single zero length byte when properties are absent — and returns
1 + count + len. -/
theorem auth_write_layout (a : Auth) (h : a.len ≤ 268435455) :
    Auth.write a =
      .ok (0xF0 :: (encodeVarint a.len ++ (a.reason.write ++
          (match a.properties with
           | some p => encodeVarint p.len ++ p.fieldBytes
           | none => [0]))),
        1 + (encodeVarint a.len).length + a.len) := by
  unfold Auth.write write_remaining_length
  rw [if_neg (by omega)]
  rcases hp : a.properties with _ | p
  · simp [encodeVarint_zero]
  · have hlen : a.len = 1 + 1 + p.len := by simp [Auth.len, hp]
    have hple : ¬ p.len > 268435455 := by omega
    simp [AuthProperties.write, write_remaining_length, hple]

/-- C7 witness: the layout at the concrete packet with reason Success and no
properties — length 2 is representable and the emitted bytes are
[0xF0, 0x02, 0x00, 0x00] with returned count 4. -/
theorem auth_write_layout_witness :
    Auth.len ⟨.Success, none⟩ ≤ 268435455 ∧
    Auth.write ⟨.Success, none⟩ = .ok ([240, 2, 0, 0], 4) := by
  refine ⟨by decide, ?_⟩
  rw [auth_write_layout ⟨.Success, none⟩ (by decide)]
  decide

/-- C8: a property block (one-byte length `L`, 0 < L < 128) whose first entry
identifier is not one of the four Auth-legal property identifiers 21, 22, 31,
38 makes AuthProperties::read fail with InvalidPropertyType carrying that
identifier, whatever bytes follow. -/
theorem auth_read_invalid_property_identifier (id : Fin 256)
    (h21 : id.val ≠ 21) (h22 : id.val ≠ 22) (h31 : id.val ≠ 31)
    (h38 : id.val ≠ 38) (L : Nat) (hL0 : 0 < L) (hL : L < 128)
    (rest : List Nat) :
    AuthProperties.read (L :: id.val :: rest) =
      .error (.InvalidPropertyType id.val) := by
  obtain ⟨k, rfl⟩ : ∃ k, L = k + 1 := ⟨L - 1, by omega⟩
  have hloop : AuthProperties.readLoop (k + 1) 0 (k + 1) AuthProperties.default
      (id.val :: rest) = .error (.InvalidPropertyType id.val) := by
    unfold AuthProperties.readLoop
    rw [if_pos (by omega)]
    simp only [read_u8]
    rcases property_not_auth_legal id.val h21 h22 h31 h38 with
      herr | ⟨ty, hok, hm, hd, hr, hu⟩
    · rw [herr]
    · rw [hok]
      cases ty <;> simp_all
  simp [AuthProperties.read, length_single_byte _ _ hL, hloop]

/-- C8 witness: identifier 5 (not Auth-legal) inside a 1-byte block is
rejected with InvalidPropertyType 5. -/
theorem auth_read_invalid_property_identifier_witness :
    AuthProperties.read [1, 5] = .error (.InvalidPropertyType 5) :=
  auth_read_invalid_property_identifier ⟨5, by decide⟩ (by decide) (by decide)
    (by decide) (by decide) 1 (by decide) (by decide) []

/-- Entry bytes of an AuthenticationData property (identifier 22, 2-byte
big-endian length prefix, payload) followed by the rest of the block. -/
def dataEntry (d rest : List Nat) : List Nat :=
  22 :: 0 :: d.length :: (d ++ rest)

/-- Entry bytes of a user property (identifier 38, key and value each behind
a 2-byte big-endian length prefix) followed by the rest of the block. -/
def userEntry (k v rest : List Nat) : List Nat :=
  38 :: 0 :: k.length :: (k ++ 0 :: v.length :: (v ++ rest))

/-- One iteration of the property loop over an AuthenticationData entry:
the data field is overwritten with the entry's payload, whatever it held. -/
theorem readLoop_data_step (fuel cursor plen : Nat) (props : AuthProperties)
    (d rest : List Nat) (hf : 0 < fuel) (hcur : cursor < plen) :
    AuthProperties.readLoop fuel cursor plen props (dataEntry d rest) =
    AuthProperties.readLoop (fuel - 1) (cursor + 1 + (2 + d.length)) plen
      { props with data := some d } rest := by
  obtain ⟨f, rfl⟩ : ∃ f, fuel = f + 1 := ⟨fuel - 1, by omega⟩
  conv_lhs => unfold AuthProperties.readLoop
  rw [if_pos hcur]
  simp [read_u8, property, dataEntry, read_mqtt_bytes_exact]

/-- One iteration of the property loop over a user-property entry: the pair
is appended at the end of the user-property list. -/
theorem readLoop_user_step (fuel cursor plen : Nat) (props : AuthProperties)
    (k v rest : List Nat) (hf : 0 < fuel) (hcur : cursor < plen) :
    AuthProperties.readLoop fuel cursor plen props (userEntry k v rest) =
    AuthProperties.readLoop (fuel - 1)
      (cursor + 1 + (2 + k.length + 2 + v.length)) plen
      { props with user_properties := props.user_properties ++ [(k, v)] }
      rest := by
  obtain ⟨f, rfl⟩ : ∃ f, fuel = f + 1 := ⟨fuel - 1, by omega⟩
  conv_lhs => unfold AuthProperties.readLoop
  rw [if_pos hcur]
  simp [read_u8, property, userEntry, read_mqtt_string, read_mqtt_bytes_exact]

/-- The property loop stops as soon as the cursor reaches the declared
length, leaving the remaining buffer untouched. -/
theorem readLoop_exit (fuel cursor plen : Nat) (props : AuthProperties)
    (bytes : List Nat) (h : ¬ cursor < plen) :
    AuthProperties.readLoop fuel cursor plen props bytes = .ok (props, bytes) := by
  unfold AuthProperties.readLoop
  rw [if_neg h]

/-- C9: non-repeatable properties appearing twice in one block are not
rejected — the field silently takes the later occurrence — while user
properties append in order: a block holding AuthenticationData d1, then d2,
then user properties (k1,v1) and (k2,v2) parses to data = d2 and the
user-property list [(k1,v1), (k2,v2)]; likewise a block with two
AuthenticationMethod entries ("a" then "b") parses to method = "b". -/
theorem auth_duplicate_property_overwrite_append
    (d1 d2 k1 v1 k2 v2 : List Nat)
    (hL : 16 + d1.length + d2.length + k1.length + v1.length + k2.length +
      v2.length < 128) :
    AuthProperties.read
        ((16 + d1.length + d2.length + k1.length + v1.length + k2.length +
            v2.length) ::
          dataEntry d1 (dataEntry d2 (userEntry k1 v1 (userEntry k2 v2 [])))) =
      .ok (some ⟨none, some d2, none, [(k1, v1), (k2, v2)]⟩, []) ∧
    AuthProperties.read [4, 21, 0, 1, 97, 21, 0, 1, 98] =
      .ok (some ⟨some [98], none, none, []⟩, []) := by
  refine ⟨?_, by decide⟩
  set L := 16 + d1.length + d2.length + k1.length + v1.length + k2.length +
    v2.length with hLdef
  have hloop : AuthProperties.readLoop L 0 L AuthProperties.default
      (dataEntry d1 (dataEntry d2 (userEntry k1 v1 (userEntry k2 v2 [])))) =
      .ok (⟨none, some d2, none, [(k1, v1), (k2, v2)]⟩, []) := by
    rw [readLoop_data_step _ _ _ _ _ _ (by omega) (by omega),
      readLoop_data_step _ _ _ _ _ _ (by omega) (by omega),
      readLoop_user_step _ _ _ _ _ _ _ (by omega) (by omega),
      readLoop_user_step _ _ _ _ _ _ _ (by omega) (by omega),
      readLoop_exit _ _ _ _ _ (by omega)]
    simp [AuthProperties.default]
  have hL0 : ¬ L = 0 := by omega
  simp [AuthProperties.read, length_single_byte _ _ hL, hloop, hL0]

/-- C9 witness: the duplicate-data/user-append law at concrete lists —
data entries [5] then [6, 7], user properties ([107],[118]) and
([],[119]). -/
theorem auth_duplicate_property_overwrite_append_witness :
    AuthProperties.read
        ((16 + List.length [5] + List.length [6, 7] + List.length [107] +
            List.length [118] + List.length ([] : List Nat) +
            List.length [119]) ::
          dataEntry [5] (dataEntry [6, 7]
            (userEntry [107] [118] (userEntry [] [119] [])))) =
      .ok (some ⟨none, some [6, 7], none, [([107], [118]), ([], [119])]⟩, []) ∧
    AuthProperties.read [4, 21, 0, 1, 97, 21, 0, 1, 98] =
      .ok (some ⟨some [98], none, none, []⟩, []) :=
  auth_duplicate_property_overwrite_append [5] [6, 7] [107] [118] [] [119]
    (by decide)

end Rumqtt
